import Mathlib

/-!
Verification development for the MarkUI backend (job lifecycle and storage
governance subsystem).  The definitions below are a shallow embedding of the
Python source under `backend/app`:

* the storage eviction engine (`services/storage_manager.py`) together with
  the record-level operations of the key/value store (`core/redis_client.py`);
* the background job execution path (`api/routes/conversion.py`,
  `services/marker_service.py`);
* job creation with layered configuration resolution
  (`api/routes/conversion.py`);
* document deletion with its cascade (`api/routes/pdf.py`, relational
  backend);
* partial updates of the singleton user settings (`api/routes/settings.py`).

Modelling conventions: timestamps are integers (seconds since an arbitrary
epoch); an unparseable or absent ISO timestamp is `none`; the float
arithmetic of the source is modelled exactly over `ℚ`; file-system
operations are modelled as succeeding; the key/value store is an association
list from record key to record value (the `pdf:`/`job:` key prefixes of the
source are elided, keys are the bare ids).
-/

namespace MarkUI

/-- Job status enumeration (`app/schemas/models.py`, class `ConversionStatus`). -/
inductive ConversionStatus where
  | pending
  | processing
  | completed
  | failed
  | cancelled
deriving DecidableEq, Repr

/-- Output format enumeration (`app/schemas/models.py`, class `OutputFormat`). -/
inductive OutputFormat where
  | markdown
  | json
  | html
deriving DecidableEq, Repr

/-- A stored source-document record, as read back by
`RedisClient.get_pdf_document`.  The `createdAt`, `updatedAt` and
`lastAccessedAt` fields hold the parse result of the stored ISO timestamp:
`none` models a field that is absent or whose string fails to parse
(`datetime.fromisoformat` raising `ValueError`/`TypeError`). -/
structure Pdf where
  id : String
  filename : String
  filePath : String
  fileSize : Nat
  isProcessed : Bool
  createdAt : Option Int
  updatedAt : Option Int
  lastAccessedAt : Option Int
deriving DecidableEq, Repr

/-- The storage-management knobs of `app/core/config.py` (class `Settings`). -/
structure StorageSettings where
  maxStoredPdfs : Nat
  maxStorageSizeMb : Nat
  minRetentionHours : Nat
  cleanupBatchSize : Nat
deriving DecidableEq, Repr

/-- The hard-coded defaults of `app/core/config.py`: 50 PDFs, 5000 MB,
24 retention hours, cleanup batches of 10. -/
def defaultStorageSettings : StorageSettings :=
  { maxStoredPdfs := 50
    maxStorageSizeMb := 5000
    minRetentionHours := 24
    cleanupBatchSize := 10 }

/-- Python `(now - t).days`: the `timedelta.days` field floors towards
negative infinity, which is `Int.fdiv` by 86400 seconds. -/
def timedeltaDays (now t : Int) : Int :=
  Int.fdiv (now - t) 86400

/-- The deletion priority of `StorageManager._prioritize_pdfs_for_deletion`
(function `calculate_priority`): age in days times 5, plus 500 for an
unparseable creation date, plus size in MB times 3, plus 100 if the record
is not processed, plus days since last access times 3, or 75 when the
record was never accessed (or its access timestamp fails to parse). -/
def deletionPriority (now : Int) (p : Pdf) : ℚ :=
  (match p.createdAt with
    | some t => (timedeltaDays now t : ℚ) * 5
    | none => 500)
  + ((p.fileSize : ℚ) / (1024 * 1024)) * 3
  + (if p.isProcessed then 0 else 100)
  + (match p.lastAccessedAt with
    | some t => (timedeltaDays now t : ℚ) * 3
    | none => 75)

/-- One step of a stable descending insertion sort on `deletionPriority`:
a new element is placed after every already-placed element of greater or
equal priority, which reproduces the stability of Python `sorted` with
`reverse=True`. -/
def insertByPriorityDesc (now : Int) (x : Pdf) : List Pdf → List Pdf
  | [] => [x]
  | y :: ys =>
    if deletionPriority now y < deletionPriority now x then x :: y :: ys
    else y :: insertByPriorityDesc now x ys

/-- `StorageManager._prioritize_pdfs_for_deletion`: stable sort by
descending deletion priority (highest priority to delete first). -/
def prioritizePdfsForDeletion (now : Int) (pdfs : List Pdf) : List Pdf :=
  pdfs.foldl (fun acc x => insertByPriorityDesc now x acc) []

/-- The minimum-retention cutoff computed at the top of
`_perform_smart_cleanup`: `datetime.utcnow() - timedelta(hours=min_retention_hours)`. -/
def retentionFloor (s : StorageSettings) (now : Int) : Int :=
  now - (s.minRetentionHours : Int) * 3600

/-- The deletability filter of `_perform_smart_cleanup`: a record is
deletable when its creation timestamp parses to a time strictly before the
retention cutoff, or when the timestamp does not parse at all (the source
comments: considered deletable for safety). -/
def isDeletable (s : StorageSettings) (now : Int) (p : Pdf) : Bool :=
  match p.createdAt with
  | some t => decide (t < retentionFloor s now)
  | none => true

/-- Total stored bytes of a list of records. -/
def totalSizeBytes (pdfs : List Pdf) : Nat :=
  (pdfs.map Pdf.fileSize).sum

/-- The batch deletion loop of `_perform_smart_cleanup` (the `for i in
range(0, len(prioritized_pdfs), batch_size)` loop).  Every record of the
current batch is deleted (file, previews, store record — all modelled as
succeeding), the running count and size are decremented per record, and
only after a whole batch does the loop test whether both limits are now
met and break.  The returned list is the list of deleted records in
deletion order.  A zero batch size makes the source `range` call raise
`ValueError` before anything is deleted, modelled by the empty result. -/
def cleanupLoop (maxCount : Int) (maxSizeMb : ℚ) (batchSize : Nat)
    (rest : List Pdf) (count : Int) (sizeMb : ℚ) : List Pdf :=
  if h : rest = [] ∨ batchSize = 0 then []
  else if count - ((rest.take batchSize).length : Int) ≤ maxCount ∧
      sizeMb - (((rest.take batchSize).map Pdf.fileSize).sum : ℚ) / (1024 * 1024) ≤ maxSizeMb then
    rest.take batchSize
  else
    rest.take batchSize ++
      cleanupLoop maxCount maxSizeMb batchSize (rest.drop batchSize)
        (count - ((rest.take batchSize).length : Int))
        (sizeMb - (((rest.take batchSize).map Pdf.fileSize).sum : ℚ) / (1024 * 1024))
termination_by rest.length
decreasing_by
  rw [not_or] at h
  have h1 : rest.length ≠ 0 := fun hh => h.1 (List.eq_nil_of_length_eq_zero hh)
  have h2 : batchSize ≠ 0 := h.2
  simp only [List.length_drop]
  omega

/-- `StorageManager._perform_smart_cleanup`: filter the records through the
retention floor, stop with no deletions when nothing is deletable, sort the
deletable records by descending priority, and delete them in batches until
both limits are met or the deletable set is exhausted.  Returns the deleted
records. -/
def performSmartCleanup (s : StorageSettings) (now : Int) (pdfs : List Pdf) : List Pdf :=
  let deletable := pdfs.filter (isDeletable s now)
  if deletable.isEmpty then []
  else
    cleanupLoop (s.maxStoredPdfs : Int) (s.maxStorageSizeMb : ℚ)
      (min s.cleanupBatchSize (prioritizePdfsForDeletion now deletable).length)
      (prioritizePdfsForDeletion now deletable)
      (pdfs.length : Int)
      ((totalSizeBytes pdfs : ℚ) / (1024 * 1024))

/-- Python `round` to the nearest integer with ties to even (banker's
rounding), on an exact rational. -/
def roundHalfEven (q : ℚ) : Int :=
  if q - q.floor < 1 / 2 then q.floor
  else if 1 / 2 < q - q.floor then q.floor + 1
  else if q.floor % 2 = 0 then q.floor else q.floor + 1

/-- Python `round(x, 2)` on an exact rational. -/
def round2 (q : ℚ) : ℚ :=
  (roundHalfEven (q * 100) : ℚ) / 100

/-- The document half of the key/value store: records keyed by id (the
`pdf:` key prefix of the source is elided). -/
abbrev PdfStore := List (String × Pdf)

/-- Insert into or replace in an association list under the given key
(`redis.hset` writes the full record under the key). -/
def upsertAssoc {α : Type} (l : List (String × α)) (k : String) (v : α) : List (String × α) :=
  if l.any (fun kv => kv.1 = k) then
    l.map (fun kv => if kv.1 = k then (k, v) else kv)
  else l ++ [(k, v)]

/-- Read the record stored under a key. -/
def lookupAssoc {α : Type} (l : List (String × α)) (k : String) : Option α :=
  (l.find? (fun kv => kv.1 = k)).map Prod.snd

/-- Ordering on parsed creation timestamps used by
`RedisClient.get_all_pdf_documents`, which sorts records by the raw ISO
string (oldest first, records with a missing timestamp sort first since
they compare as the empty string). -/
def createdKeyLe : Option Int → Option Int → Bool
  | none, _ => true
  | some _, none => false
  | some a, some b => decide (a ≤ b)

/-- One step of a stable ascending insertion sort by creation timestamp. -/
def insertByCreatedAsc (x : Pdf) : List Pdf → List Pdf
  | [] => [x]
  | y :: ys =>
    if createdKeyLe y.createdAt x.createdAt then y :: insertByCreatedAsc x ys
    else x :: y :: ys

/-- Stable ascending sort by creation timestamp
(`pdfs.sort(key=lambda x: x.get('created_at', ''))`). -/
def sortByCreatedAsc (pdfs : List Pdf) : List Pdf :=
  pdfs.foldl (fun acc x => insertByCreatedAsc x acc) []

/-- `RedisClient.get_all_pdf_documents`: all stored records, sorted by
creation time, oldest first. -/
def getAllPdfDocuments (st : PdfStore) : List Pdf :=
  sortByCreatedAsc (st.map Prod.snd)

/-- The aggregate returned by `RedisClient.get_storage_stats`. -/
structure StorageStats where
  totalPdfs : Nat
  totalSizeBytesStat : Nat
  totalSizeMb : ℚ
  pdfs : List Pdf
deriving Repr

/-- `RedisClient.get_storage_stats`: count, byte total, megabyte total
rounded to two decimals, and the record list itself. -/
def getStorageStats (st : PdfStore) : StorageStats :=
  { totalPdfs := (getAllPdfDocuments st).length
    totalSizeBytesStat := totalSizeBytes (getAllPdfDocuments st)
    totalSizeMb := round2 ((totalSizeBytes (getAllPdfDocuments st) : ℚ) / (1024 * 1024))
    pdfs := getAllPdfDocuments st }

/-- `RedisClient.delete_pdf_document`: remove the record stored under the
given id. -/
def deletePdfDocument (st : PdfStore) (pdfId : String) : PdfStore :=
  st.filter (fun kv => kv.1 ≠ pdfId)

/-- `RedisClient.save_pdf_document` overwrites both timestamp fields of the
supplied record with the current time before storing it, regardless of what
the caller passed. -/
def savePdfRecord (now : Int) (data : Pdf) : Pdf :=
  { data with createdAt := some now, updatedAt := some now }

/-- `RedisClient.save_pdf_document`: store the record (with freshly
overwritten timestamps) under the given id. -/
def savePdfDocument (now : Int) (pdfId : String) (data : Pdf) (st : PdfStore) : PdfStore :=
  upsertAssoc st pdfId (savePdfRecord now data)

/-- Read a document record (`RedisClient.get_pdf_document`). -/
def lookupPdf (st : PdfStore) (pdfId : String) : Option Pdf :=
  lookupAssoc st pdfId

/-- Reason tags for the human-readable trigger messages built by
`check_and_cleanup_storage` (the message text itself is elided). -/
inductive CleanupReason where
  | countExceeded
  | sizeExceeded
deriving DecidableEq, Repr

/-- The statistics dictionary returned by
`StorageManager.check_and_cleanup_storage`. -/
structure CleanupStats where
  initialCount : Nat
  initialSizeMb : ℚ
  deletedCount : Nat
  deletedSizeMb : ℚ
  finalCount : Nat
  finalSizeMb : ℚ
  cleanupReason : List CleanupReason
deriving Repr

/-- `StorageManager.check_and_cleanup_storage`: read the aggregate stats,
return zero deletions when neither limit is exceeded, otherwise run the
smart cleanup, delete the returned records from the store (skipping a
record with an empty id, mirroring `if pdf_id:`), and report statistics
with the final aggregates re-read from the store. -/
def checkAndCleanupStorage (s : StorageSettings) (now : Int) (st : PdfStore) :
    CleanupStats × PdfStore :=
  let stats := getStorageStats st
  let countReason : Bool := decide (stats.totalPdfs > s.maxStoredPdfs)
  let sizeReason : Bool := decide (stats.totalSizeMb > (s.maxStorageSizeMb : ℚ))
  if countReason || sizeReason then
    let deleted := performSmartCleanup s now stats.pdfs
    let st' := deleted.foldl
      (fun acc p => if p.id ≠ "" then deletePdfDocument acc p.id else acc) st
    ({ initialCount := stats.totalPdfs
       initialSizeMb := stats.totalSizeMb
       deletedCount := deleted.length
       deletedSizeMb := round2 ((totalSizeBytes deleted : ℚ) / (1024 * 1024))
       finalCount := (getStorageStats st').totalPdfs
       finalSizeMb := (getStorageStats st').totalSizeMb
       cleanupReason :=
         (if countReason then [CleanupReason.countExceeded] else []) ++
         (if sizeReason then [CleanupReason.sizeExceeded] else []) }, st')
  else
    ({ initialCount := stats.totalPdfs
       initialSizeMb := stats.totalSizeMb
       deletedCount := 0
       deletedSizeMb := 0
       finalCount := stats.totalPdfs
       finalSizeMb := stats.totalSizeMb
       cleanupReason := [] }, st)

/-- `StorageManager.trigger_cleanup_if_needed`: run the check only when one
of the limits is currently exceeded. -/
def triggerCleanupIfNeeded (s : StorageSettings) (now : Int) (st : PdfStore) :
    Option (CleanupStats × PdfStore) :=
  let stats := getStorageStats st
  if stats.totalPdfs > s.maxStoredPdfs ∨ stats.totalSizeMb > (s.maxStorageSizeMb : ℚ) then
    some (checkAndCleanupStorage s now st)
  else none

/-- A conversion-job record as stored in the key/value store and read back
by `RedisClient.get_conversion_job`.  The several dozen marker tunables
that are copied verbatim from the request to the record (batch sizes,
thresholds, debug toggles, ...) do not interact with the lifecycle or the
resolution logic under study and are elided; the fields subject to
defaulting, validation, and state transitions are kept. -/
structure JobRecord where
  id : String
  pdfDocumentId : String
  outputFormat : OutputFormat
  useLlm : Bool
  forceOcr : Bool
  stripExistingOcr : Bool
  formatLines : Bool
  redoInlineMath : Bool
  disableImageExtraction : Bool
  paginateOutput : Bool
  llmService : Option String
  llmModel : Option String
  geminiApiKey : Option String
  openaiApiKey : Option String
  claudeApiKey : Option String
  status : ConversionStatus
  progress : Int
  outputFilePath : Option String
  outputMetadata : Option (List (String × String))
  errorMessage : Option String
  createdAt : Int
  startedAt : Option Int
  completedAt : Option Int
deriving DecidableEq, Repr

/-- The key/value store as seen by the conversion routes: the per-prefix id
counter (`counter:job`), the job records keyed by id, and the document
records. -/
structure RedisStore where
  jobCounter : Nat
  jobs : List (String × JobRecord)
  pdfs : PdfStore
deriving Repr

/-- Read a job record (`RedisClient.get_conversion_job`). -/
def lookupJob (st : RedisStore) (jobId : String) : Option JobRecord :=
  lookupAssoc st.jobs jobId

/-- `RedisClient.save_conversion_job`: store the record under its id
(`created_at` is preserved when already present, which is the case on every
call modelled here). -/
def saveConversionJob (st : RedisStore) (jobId : String) (j : JobRecord) : RedisStore :=
  { st with jobs := upsertAssoc st.jobs jobId j }

/-- Outcome of the black-box conversion engine invocation
(`converter(pdf_path)` inside `MarkerService._convert_pdf_sync`): either a
rendered output persisted at a path, or an exception with a message. -/
inductive EngineOutcome where
  | ok (outputPath : String) (metadata : List (String × String))
  | raises (msg : String)
deriving DecidableEq, Repr

/-- The result dictionary returned by `MarkerService._convert_pdf_sync`. -/
structure ConvertResult where
  outputPath : Option String
  metadata : List (String × String)
  success : Bool
  error : Option String
deriving DecidableEq, Repr

/-- `MarkerService._convert_pdf_sync`: the entire body, including the
engine invocation, runs under a blanket `except Exception` that catches any
exception and returns a result dictionary with `success = False` and
`output_path = None` instead of re-raising. -/
def convertPdfSync (outcome : EngineOutcome) : ConvertResult :=
  match outcome with
  | .ok path md =>
    { outputPath := some path, metadata := md, success := true, error := none }
  | .raises msg =>
    { outputPath := none, metadata := [], success := false, error := some msg }

/-- The begin phase of `process_conversion_job` (conversion.py lines 36-44):
fetch the job; when it has disappeared, log and return without modifying
anything; otherwise set the status to `processing` and stamp `started_at`,
and save.  Progress is not touched.  Returns the updated store and the
updated record (or `none` when the job was missing). -/
def beginConversionJob (st : RedisStore) (jobId : String) (now : Int) :
    RedisStore × Option JobRecord :=
  match lookupJob st jobId with
  | none => (st, none)
  | some job =>
    (saveConversionJob st jobId { job with status := .processing, startedAt := some now },
     some { job with status := .processing, startedAt := some now })

/-- The background task `process_conversion_job` of
`api/routes/conversion.py`: begin the job, fail it when its source document
is gone, otherwise invoke the engine through
`MarkerService.convert_pdf` and store the result.  The completion branch
unconditionally marks the job `completed` with progress 100 and
`output_file_path = result.get("output_path")`; the `success` flag of the
result is never consulted, so an engine exception (swallowed inside
`_convert_pdf_sync`) still reaches this branch.  The distinct wall-clock
reads of the source are collapsed into the single instant `now`. -/
def processConversionJob (st : RedisStore) (jobId : String) (outcome : EngineOutcome)
    (now : Int) : RedisStore :=
  match beginConversionJob st jobId now with
  | (st1, none) => st1
  | (st1, some job1) =>
    match lookupPdf st.pdfs job1.pdfDocumentId with
    | none =>
      saveConversionJob st1 jobId
        { job1 with status := .failed
                    errorMessage := some "PDF document not found"
                    completedAt := some now }
    | some _ =>
      saveConversionJob st1 jobId
        { job1 with status := .completed
                    completedAt := some now
                    progress := 100
                    outputFilePath := (convertPdfSync outcome).outputPath
                    outputMetadata := some (convertPdfSync outcome).metadata }

/-- The optional fields of a job-creation request
(`app/schemas/conversion.py`, class `ConversionJobCreate`) that take part
in defaulting or credential validation; the remaining tunables are copied
verbatim into the job and are elided. -/
structure ConversionJobCreate where
  pdfDocumentId : String
  outputFormat : Option String
  useLlm : Option Bool
  forceOcr : Option Bool
  formatLines : Option Bool
  stripExistingOcr : Option Bool
  redoInlineMath : Option Bool
  disableImageExtraction : Option Bool
  paginateOutput : Option Bool
  llmService : Option String
  llmModel : Option String
  geminiApiKey : Option String
  openaiApiKey : Option String
  claudeApiKey : Option String
deriving DecidableEq, Repr

/-- The singleton user-settings record as returned by
`RedisClient.get_user_settings` (fields relevant to job creation). -/
structure UserSettingsRecord where
  defaultOutputFormat : Option String
  defaultUseLlm : Option Bool
  defaultForceOcr : Option Bool
  defaultFormatLines : Option Bool
  defaultLlmService : Option String
  geminiApiKey : Option String
  openaiApiKey : Option String
  claudeApiKey : Option String
deriving DecidableEq, Repr

/-- The process-environment credentials of `app/core/config.py` consulted
as the last fallback. -/
structure EnvSettings where
  geminiApiKey : Option String
  openaiApiKey : Option String
  claudeApiKey : Option String
deriving DecidableEq, Repr

/-- Python truthiness of an optional string: `None` and the empty string
are falsy. -/
def optStrTruthy : Option String → Bool
  | none => false
  | some s => !s.isEmpty

/-- Does the text start with the pattern (on character lists)? -/
def charsStartWith : List Char → List Char → Bool
  | [], _ => true
  | _ :: _, [] => false
  | c :: cs, d :: ds => c == d && charsStartWith cs ds

/-- Does the text contain the pattern as a contiguous substring? -/
def charsContain (pat : List Char) : List Char → Bool
  | [] => charsStartWith pat []
  | c :: ds => charsStartWith pat (c :: ds) || charsContain pat ds

/-- Python `sub in s` on strings. -/
def strContains (s sub : String) : Bool :=
  charsContain sub.toList s.toList

/-- ASCII lowering of one character (`str.lower()` restricted to the ASCII
range, which is all the service names exercise). -/
def charToLower (c : Char) : Char :=
  if 'A' ≤ c ∧ c ≤ 'Z' then Char.ofNat (c.toNat + 32) else c

/-- Python `s.lower()` as a character list. -/
def pyLower (s : String) : List Char :=
  s.toList.map charToLower

/-- The configuration actually resolved by `create_conversion_job` before
the job record is built. -/
structure ResolvedJobOptions where
  useLlm : Bool
  llmService : Option String
  forceOcr : Bool
  formatLines : Bool
  stripExistingOcr : Bool
  redoInlineMath : Bool
  disableImageExtraction : Bool
  paginateOutput : Bool
  outputFormat : String
deriving DecidableEq, Repr

/-- The defaulting logic of `create_conversion_job` (conversion.py lines
191-234).  When user settings exist, a `None` request field falls back to
the stored default; in the `use_llm` branch the stored
`default_llm_service` additionally replaces the `llm_service` variable
whenever the defaulted `use_llm` is truthy and a truthy default service is
stored — note that this happens regardless of whether the request supplied
an explicit `llm_service`.  Afterwards the remaining `None` values receive
the hard-coded system defaults. -/
def resolveJobOptions (req : ConversionJobCreate)
    (userSettings : Option UserSettingsRecord) : ResolvedJobOptions :=
  let afterUser :
      Option Bool × Option String × Option Bool × Option Bool × Option String :=
    match userSettings with
    | none => (req.useLlm, req.llmService, req.forceOcr, req.formatLines, req.outputFormat)
    | some us =>
      let (useLlm1, llmService1) :=
        match req.useLlm with
        | some b => (some b, req.llmService)
        | none =>
          let u := us.defaultUseLlm.getD false
          if u && optStrTruthy us.defaultLlmService then (some u, us.defaultLlmService)
          else (some u, req.llmService)
      (useLlm1, llmService1,
       some (req.forceOcr.getD (us.defaultForceOcr.getD false)),
       some (req.formatLines.getD (us.defaultFormatLines.getD false)),
       match req.outputFormat with
       | some f => some f
       | none => some (us.defaultOutputFormat.getD "markdown"))
  { useLlm := afterUser.1.getD false
    llmService := afterUser.2.1
    forceOcr := afterUser.2.2.1.getD false
    formatLines := afterUser.2.2.2.1.getD false
    stripExistingOcr := req.stripExistingOcr.getD false
    redoInlineMath := req.redoInlineMath.getD false
    disableImageExtraction := req.disableImageExtraction.getD false
    paginateOutput := req.paginateOutput.getD false
    outputFormat := afterUser.2.2.2.2.getD "markdown" }

/-- Truthiness of the stored user-settings Gemini credential, `None` user
settings included (`user_settings and user_settings.get("gemini_api_key")`). -/
def userSettingsGeminiTruthy : Option UserSettingsRecord → Bool
  | none => false
  | some us => optStrTruthy us.geminiApiKey

/-- Truthiness of the stored user-settings OpenAI credential. -/
def userSettingsOpenaiTruthy : Option UserSettingsRecord → Bool
  | none => false
  | some us => optStrTruthy us.openaiApiKey

/-- Truthiness of the stored user-settings Claude credential. -/
def userSettingsClaudeTruthy : Option UserSettingsRecord → Bool
  | none => false
  | some us => optStrTruthy us.claudeApiKey

/-- The credential-availability check of `create_conversion_job`
(conversion.py lines 241-268): branch on the lowercased service name; the
first three branches require a key from the request, the stored settings or
the environment; `ollama`/`vertex` need none; any other name leaves
`api_key_available` false. -/
def apiKeyAvailable (req : ConversionJobCreate) (userSettings : Option UserSettingsRecord)
    (env : EnvSettings) (llmService : String) : Bool :=
  let serviceName := pyLower llmService
  if charsContain "gemini".toList serviceName then
    optStrTruthy req.geminiApiKey || userSettingsGeminiTruthy userSettings ||
      optStrTruthy env.geminiApiKey
  else if charsContain "openai".toList serviceName then
    optStrTruthy req.openaiApiKey || userSettingsOpenaiTruthy userSettings ||
      optStrTruthy env.openaiApiKey
  else if charsContain "claude".toList serviceName then
    optStrTruthy req.claudeApiKey || userSettingsClaudeTruthy userSettings ||
      optStrTruthy env.claudeApiKey
  else if charsContain "ollama".toList serviceName || charsContain "vertex".toList serviceName then
    true
  else
    false

/-- The `OutputFormat(output_format)` enum conversion; an unknown string
raises, surfacing as a 500 before any record is created. -/
def parseOutputFormat : String → Option OutputFormat
  | "markdown" => some OutputFormat.markdown
  | "json" => some OutputFormat.json
  | "html" => some OutputFormat.html
  | _ => none

/-- Errors of the job-creation route: missing referenced document (404),
missing credential for a requested AI service (400 — the configuration
error of the design), and an invalid output-format string (escapes as a
500). -/
inductive CreateJobError where
  | notFound
  | apiKeyRequired
  | invalidOutputFormat
deriving DecidableEq, Repr

/-- `create_conversion_job` (conversion.py lines 174-371): verify the
referenced document exists, resolve the layered configuration, validate
the credential when AI assistance is enabled with a named service, and
only then allocate an id from the counter and persist the `pending` record
with progress 0.  On any error the store is returned unchanged. -/
def createConversionJob (st : RedisStore) (req : ConversionJobCreate)
    (userSettings : Option UserSettingsRecord) (env : EnvSettings) (now : Int) :
    RedisStore × Except CreateJobError JobRecord :=
  match lookupPdf st.pdfs req.pdfDocumentId with
  | none => (st, .error .notFound)
  | some _ =>
    let r := resolveJobOptions req userSettings
    match parseOutputFormat r.outputFormat with
    | none => (st, .error .invalidOutputFormat)
    | some fmt =>
      if r.useLlm && optStrTruthy r.llmService &&
          !(apiKeyAvailable req userSettings env (r.llmService.getD "")) then
        (st, .error .apiKeyRequired)
      else
        let jobId := "job_" ++ toString (st.jobCounter + 1)
        let job : JobRecord :=
          { id := jobId
            pdfDocumentId := req.pdfDocumentId
            outputFormat := fmt
            useLlm := r.useLlm
            forceOcr := r.forceOcr
            stripExistingOcr := r.stripExistingOcr
            formatLines := r.formatLines
            redoInlineMath := r.redoInlineMath
            disableImageExtraction := r.disableImageExtraction
            paginateOutput := r.paginateOutput
            llmService := r.llmService
            llmModel := req.llmModel
            geminiApiKey := req.geminiApiKey
            openaiApiKey := req.openaiApiKey
            claudeApiKey := req.claudeApiKey
            status := .pending
            progress := 0
            outputFilePath := none
            outputMetadata := none
            errorMessage := none
            createdAt := now
            startedAt := none
            completedAt := none }
        (saveConversionJob { st with jobCounter := st.jobCounter + 1 } jobId job, .ok job)

/-- The job listing backing `listJobs` (the ids tracked in `jobs:all`). -/
def listJobs (st : RedisStore) : List String :=
  st.jobs.map Prod.fst

/-- A document row of the relational backend (`app/models/pdf_document.py`,
fields used by the delete route). -/
structure DbPdf where
  id : Int
  filename : String
  filePath : String
  fileSize : Nat
deriving DecidableEq, Repr

/-- A conversion-job row of the relational backend
(`app/models/conversion_job.py`, fields used by the delete route). -/
structure DbJob where
  id : Int
  pdfDocumentId : Int
deriving DecidableEq, Repr

/-- `FileManager.get_job_dir`: the per-job output directory
`output_dir/job_{id}`. -/
def getJobDir (outputDir : String) (jobId : Int) : String :=
  outputDir ++ "/job_" ++ toString jobId

/-- The relational store plus the file system as seen by the document
routes: document rows, job rows, the set of existing job output
directories, and the set of existing files. -/
structure Db where
  pdfs : List DbPdf
  jobs : List DbJob
  dirs : List String
  files : List String
deriving DecidableEq, Repr

/-- Error of the document delete route: unknown document id (404). -/
inductive DeleteError where
  | notFound
deriving DecidableEq, Repr

/-- `delete_pdf` (`api/routes/pdf.py` lines 158-215): look up the document;
delete the output directory of every job referencing it, then the job rows
themselves, then the document file, then the document row, and commit.
Directory and file removal are modelled as succeeding (the source logs and
continues on failure). -/
def deletePdf (outputDir : String) (db : Db) (pdfId : Int) : Except DeleteError Db :=
  match db.pdfs.find? (fun p => p.id = pdfId) with
  | none => .error .notFound
  | some pdf =>
    .ok { pdfs := db.pdfs.filter (fun p => p.id ≠ pdfId)
          jobs := db.jobs.filter (fun j => j.pdfDocumentId ≠ pdfId)
          dirs := db.dirs.filter (fun d =>
            !((db.jobs.filter (fun j => j.pdfDocumentId = pdfId)).map
                (fun j => getJobDir outputDir j.id)).contains d)
          files := db.files.filter (fun f => f ≠ pdf.filePath) }

/-- The singleton user-settings row of the relational backend
(`app/models/user_settings.py`); every column other than the primary key is
nullable or defaulted, so each is an optional value here.  The opaque
`additional_settings` JSON blob is modelled as an association list. -/
structure SettingsRow where
  theme : Option String
  defaultLlmService : Option String
  geminiApiKey : Option String
  openaiApiKey : Option String
  claudeApiKey : Option String
  ollamaBaseUrl : Option String
  ollamaModel : Option String
  openaiModel : Option String
  openaiBaseUrl : Option String
  claudeModelName : Option String
  vertexProjectId : Option String
  defaultOutputFormat : Option String
  defaultUseLlm : Option Bool
  defaultForceOcr : Option Bool
  defaultFormatLines : Option Bool
  additionalSettings : Option (List (String × String))
deriving DecidableEq, Repr

/-- A partial settings update (`app/schemas/settings.py`, class
`UserSettingsUpdate`, applied with `model_dump(exclude_unset=True)`).  The
outer option distinguishes a field absent from the update (`none`: leave
unchanged) from a field explicitly supplied (`some v`), whose value `v` may
itself be an explicit null. -/
structure SettingsUpdate where
  theme : Option (Option String)
  defaultLlmService : Option (Option String)
  geminiApiKey : Option (Option String)
  openaiApiKey : Option (Option String)
  claudeApiKey : Option (Option String)
  ollamaBaseUrl : Option (Option String)
  ollamaModel : Option (Option String)
  openaiModel : Option (Option String)
  openaiBaseUrl : Option (Option String)
  claudeModelName : Option (Option String)
  vertexProjectId : Option (Option String)
  defaultOutputFormat : Option (Option String)
  defaultUseLlm : Option (Option Bool)
  defaultForceOcr : Option (Option Bool)
  defaultFormatLines : Option (Option Bool)
  additionalSettings : Option (Option (List (String × String)))
deriving DecidableEq, Repr

/-- `update_user_settings` (`api/routes/settings.py` lines 74-77): iterate
over the fields present in the dump and `setattr` each onto the row; fields
absent from the update keep their stored value. -/
def applySettingsUpdate (row : SettingsRow) (u : SettingsUpdate) : SettingsRow :=
  { theme := u.theme.getD row.theme
    defaultLlmService := u.defaultLlmService.getD row.defaultLlmService
    geminiApiKey := u.geminiApiKey.getD row.geminiApiKey
    openaiApiKey := u.openaiApiKey.getD row.openaiApiKey
    claudeApiKey := u.claudeApiKey.getD row.claudeApiKey
    ollamaBaseUrl := u.ollamaBaseUrl.getD row.ollamaBaseUrl
    ollamaModel := u.ollamaModel.getD row.ollamaModel
    openaiModel := u.openaiModel.getD row.openaiModel
    openaiBaseUrl := u.openaiBaseUrl.getD row.openaiBaseUrl
    claudeModelName := u.claudeModelName.getD row.claudeModelName
    vertexProjectId := u.vertexProjectId.getD row.vertexProjectId
    defaultOutputFormat := u.defaultOutputFormat.getD row.defaultOutputFormat
    defaultUseLlm := u.defaultUseLlm.getD row.defaultUseLlm
    defaultForceOcr := u.defaultForceOcr.getD row.defaultForceOcr
    defaultFormatLines := u.defaultFormatLines.getD row.defaultFormatLines
    additionalSettings := u.additionalSettings.getD row.additionalSettings }

/-- Witness for C1 at a concrete input: a store of 51 fresh records (all
created at the current instant, so younger than the 24-hour retention
floor) that exceeds the 50-record limit; the cleanup still deletes nothing
and leaves the store unchanged. -/
def freshExamplePdf (i : Nat) : Pdf :=
  { id := toString i
    filename := "doc.pdf"
    filePath := "uploads/doc.pdf"
    fileSize := 0
    isProcessed := true
    createdAt := some 1000000
    updatedAt := some 1000000
    lastAccessedAt := some 1000000 }

def freshStore51 : PdfStore :=
  (List.range 51).map (fun i => (toString i, freshExamplePdf i))

/-- A store of 51 records, all eligible for deletion at time 1000000 (each
was created at time 0, far beyond the 24-hour retention floor). -/
def oldExamplePdf (i : Nat) : Pdf :=
  { id := toString i
    filename := "doc.pdf"
    filePath := "uploads/doc.pdf"
    fileSize := 0
    isProcessed := true
    createdAt := some 0
    updatedAt := some 0
    lastAccessedAt := some 0 }

def oldStore51 : PdfStore :=
  (List.range 51).map (fun i => (toString i, oldExamplePdf i))

/-- A concrete stored document record used by the job-lifecycle examples. -/
def examplePdfDoc : Pdf :=
  { id := "pdf_1"
    filename := "doc.pdf"
    filePath := "uploads/doc.pdf"
    fileSize := 2048
    isProcessed := false
    createdAt := some 100
    updatedAt := some 100
    lastAccessedAt := none }

/-- A concrete pending job record referencing `examplePdfDoc`. -/
def exampleJobPending : JobRecord :=
  { id := "job_1"
    pdfDocumentId := "pdf_1"
    outputFormat := OutputFormat.markdown
    useLlm := false
    forceOcr := false
    stripExistingOcr := false
    formatLines := false
    redoInlineMath := false
    disableImageExtraction := false
    paginateOutput := false
    llmService := none
    llmModel := none
    geminiApiKey := none
    openaiApiKey := none
    claudeApiKey := none
    status := ConversionStatus.pending
    progress := 0
    outputFilePath := none
    outputMetadata := none
    errorMessage := none
    createdAt := 100
    startedAt := none
    completedAt := none }

/-- A store holding one document and one pending job. -/
def exampleRedisStore : RedisStore :=
  { jobCounter := 1
    jobs := [("job_1", exampleJobPending)]
    pdfs := [("pdf_1", examplePdfDoc)] }

/-- A store holding one document and no job yet. -/
def exampleBaseStore : RedisStore :=
  { jobCounter := 0
    jobs := []
    pdfs := [("pdf_1", examplePdfDoc)] }

/-- Environment settings with no credentials configured. -/
def exampleEnv : EnvSettings :=
  { geminiApiKey := none, openaiApiKey := none, claudeApiKey := none }

/-- A plain job-creation request (no AI assistance). -/
def exampleCreateReq : ConversionJobCreate :=
  { pdfDocumentId := "pdf_1"
    outputFormat := some "markdown"
    useLlm := some false
    forceOcr := none
    formatLines := none
    stripExistingOcr := none
    redoInlineMath := none
    disableImageExtraction := none
    paginateOutput := none
    llmService := none
    llmModel := none
    geminiApiKey := none
    openaiApiKey := none
    claudeApiKey := none }

/-- The store after submitting `exampleCreateReq` and running the
background task with an engine that raises: the swallow-and-complete path
of `process_conversion_job`. -/
def exampleTraceStore : RedisStore :=
  processConversionJob (createConversionJob exampleBaseStore exampleCreateReq none exampleEnv 100).1
    "job_1" (EngineOutcome.raises "engine crashed") 200

/-- A request that enables AI assistance with a Gemini service and supplies
no credential anywhere. -/
def exampleNoKeyReq : ConversionJobCreate :=
  { pdfDocumentId := "pdf_1"
    outputFormat := none
    useLlm := some true
    forceOcr := none
    formatLines := none
    stripExistingOcr := none
    redoInlineMath := none
    disableImageExtraction := none
    paginateOutput := none
    llmService := some "marker.services.gemini.GoogleGeminiService"
    llmModel := none
    geminiApiKey := none
    openaiApiKey := none
    claudeApiKey := none }

/-- A request that explicitly selects the Claude service but leaves
`use_llm` unset, and carries a Gemini credential. -/
def reqOverride : ConversionJobCreate :=
  { pdfDocumentId := "pdf_1"
    outputFormat := none
    useLlm := none
    forceOcr := none
    formatLines := none
    stripExistingOcr := none
    redoInlineMath := none
    disableImageExtraction := none
    paginateOutput := none
    llmService := some "marker.services.claude.ClaudeService"
    llmModel := none
    geminiApiKey := some "g-key"
    openaiApiKey := none
    claudeApiKey := some "c-key" }

/-- Stored user settings that default AI assistance on with a Gemini
default service. -/
def usOverride : UserSettingsRecord :=
  { defaultOutputFormat := none
    defaultUseLlm := some true
    defaultForceOcr := none
    defaultFormatLines := none
    defaultLlmService := some "marker.services.gemini.GoogleGeminiService"
    geminiApiKey := none
    openaiApiKey := none
    claudeApiKey := none }

/-- A concrete relational store: one document, two jobs referencing it, one
unrelated job, their output directories, and the document file. -/
def exampleDb : Db :=
  { pdfs := [{ id := 7, filename := "a.pdf", filePath := "uploads/a.pdf", fileSize := 10 },
             { id := 8, filename := "b.pdf", filePath := "uploads/b.pdf", fileSize := 20 }]
    jobs := [{ id := 1, pdfDocumentId := 7 }, { id := 2, pdfDocumentId := 7 },
             { id := 3, pdfDocumentId := 8 }]
    dirs := ["outputs/job_1", "outputs/job_2", "outputs/job_3"]
    files := ["uploads/a.pdf", "uploads/b.pdf"] }

/-- The store `exampleDb` after deleting document 7: only the unrelated
document, job, directory and file survive. -/
def exampleDbAfter : Db :=
  { pdfs := [{ id := 8, filename := "b.pdf", filePath := "uploads/b.pdf", fileSize := 20 }]
    jobs := [{ id := 3, pdfDocumentId := 8 }]
    dirs := ["outputs/job_3"]
    files := ["uploads/b.pdf"] }

/-- A concrete settings row. -/
def exampleRow : SettingsRow :=
  { theme := some "light"
    defaultLlmService := none
    geminiApiKey := some "old-key"
    openaiApiKey := none
    claudeApiKey := none
    ollamaBaseUrl := some "http://localhost:11434"
    ollamaModel := none
    openaiModel := none
    openaiBaseUrl := none
    claudeModelName := none
    vertexProjectId := none
    defaultOutputFormat := some "markdown"
    defaultUseLlm := some false
    defaultForceOcr := some false
    defaultFormatLines := some false
    additionalSettings := none }

/-- A partial update that sets the theme, clears the Gemini key explicitly,
and leaves every other field absent. -/
def exampleUpdate : SettingsUpdate :=
  { theme := some (some "dark")
    defaultLlmService := none
    geminiApiKey := some none
    openaiApiKey := none
    claudeApiKey := none
    ollamaBaseUrl := none
    ollamaModel := none
    openaiModel := none
    openaiBaseUrl := none
    claudeModelName := none
    vertexProjectId := none
    defaultOutputFormat := none
    defaultUseLlm := none
    defaultForceOcr := none
    defaultFormatLines := some (some true)
    additionalSettings := none }

/-! Helper lemmas about the eviction engine. -/

theorem insertByPriorityDesc_perm (now : Int) (x : Pdf) (l : List Pdf) :
    (insertByPriorityDesc now x l).Perm (x :: l) := by
  induction l with
  | nil => exact List.Perm.refl _
  | cons y ys ih =>
    unfold insertByPriorityDesc
    split
    · exact List.Perm.refl _
    · exact (ih.cons y).trans (List.Perm.swap x y ys)

theorem insertByCreatedAsc_perm (x : Pdf) (l : List Pdf) :
    (insertByCreatedAsc x l).Perm (x :: l) := by
  induction l with
  | nil => exact List.Perm.refl _
  | cons y ys ih =>
    unfold insertByCreatedAsc
    split
    · exact (ih.cons y).trans (List.Perm.swap x y ys)
    · exact List.Perm.refl _

theorem foldl_insert_perm (ins : Pdf → List Pdf → List Pdf)
    (hins : ∀ x l, (ins x l).Perm (x :: l)) :
    ∀ (l acc : List Pdf), (l.foldl (fun a x => ins x a) acc).Perm (acc ++ l) := by
  intro l
  induction l with
  | nil => intro acc; simp
  | cons x xs ih =>
    intro acc
    have h1 : (x :: xs).foldl (fun a x => ins x a) acc
        = xs.foldl (fun a x => ins x a) (ins x acc) := rfl
    rw [h1]
    refine (ih (ins x acc)).trans ?_
    refine ((hins x acc).append_right xs).trans ?_
    exact List.perm_middle.symm

theorem prioritizePdfsForDeletion_perm (now : Int) (l : List Pdf) :
    (prioritizePdfsForDeletion now l).Perm l := by
  simpa [prioritizePdfsForDeletion] using
    foldl_insert_perm (insertByPriorityDesc now) (insertByPriorityDesc_perm now) l []

theorem sortByCreatedAsc_perm (l : List Pdf) : (sortByCreatedAsc l).Perm l := by
  simpa [sortByCreatedAsc] using
    foldl_insert_perm insertByCreatedAsc insertByCreatedAsc_perm l []

theorem getAllPdfDocuments_perm (st : PdfStore) :
    (getAllPdfDocuments st).Perm (st.map Prod.snd) :=
  sortByCreatedAsc_perm (st.map Prod.snd)

theorem cleanupLoop_subset_aux (maxCount : Int) (maxSizeMb : ℚ) (batchSize : Nat) :
    ∀ (n : Nat) (rest : List Pdf), rest.length ≤ n →
      ∀ (count : Int) (sizeMb : ℚ) (a : Pdf),
        a ∈ cleanupLoop maxCount maxSizeMb batchSize rest count sizeMb → a ∈ rest := by
  intro n
  induction n with
  | zero =>
    intro rest hlen count sizeMb a ha
    have hnil : rest = [] := List.eq_nil_of_length_eq_zero (Nat.le_zero.mp hlen)
    subst hnil
    unfold cleanupLoop at ha
    simp at ha
  | succ n ih =>
    intro rest hlen count sizeMb a ha
    unfold cleanupLoop at ha
    by_cases h : rest = [] ∨ batchSize = 0
    · rw [dif_pos h] at ha; simp at ha
    · rw [dif_neg h] at ha
      split at ha
      · exact List.take_subset batchSize rest ha
      · rcases List.mem_append.mp ha with h1 | h2
        · exact List.take_subset batchSize rest h1
        · have hlen2 : (rest.drop batchSize).length ≤ n := by
            rw [not_or] at h
            have h1 : rest.length ≠ 0 := fun hh => h.1 (List.eq_nil_of_length_eq_zero hh)
            have h2 : batchSize ≠ 0 := h.2
            simp only [List.length_drop]
            omega
          exact List.drop_subset batchSize rest (ih (rest.drop batchSize) hlen2 _ _ a h2)

theorem mem_cleanupLoop {maxCount : Int} {maxSizeMb : ℚ} {batchSize : Nat}
    {rest : List Pdf} {count : Int} {sizeMb : ℚ} {a : Pdf}
    (ha : a ∈ cleanupLoop maxCount maxSizeMb batchSize rest count sizeMb) : a ∈ rest :=
  cleanupLoop_subset_aux maxCount maxSizeMb batchSize rest.length rest le_rfl count sizeMb a ha

theorem mem_performSmartCleanup {s : StorageSettings} {now : Int} {pdfs : List Pdf} {p : Pdf}
    (hp : p ∈ performSmartCleanup s now pdfs) :
    p ∈ pdfs ∧ isDeletable s now p = true := by
  unfold performSmartCleanup at hp
  by_cases hd : (pdfs.filter (isDeletable s now)).isEmpty
  · rw [if_pos hd] at hp; simp at hp
  · rw [if_neg hd] at hp
    have h1 : p ∈ prioritizePdfsForDeletion now (pdfs.filter (isDeletable s now)) :=
      mem_cleanupLoop hp
    have h2 : p ∈ pdfs.filter (isDeletable s now) :=
      (prioritizePdfsForDeletion_perm now _).mem_iff.mp h1
    exact List.mem_filter.mp h2

theorem performSmartCleanup_eq_nil_of_protected {s : StorageSettings} {now : Int}
    {pdfs : List Pdf}
    (h : ∀ p ∈ pdfs, isDeletable s now p = false) :
    performSmartCleanup s now pdfs = [] := by
  unfold performSmartCleanup
  have hf : pdfs.filter (isDeletable s now) = [] :=
    List.filter_eq_nil_iff.mpr (fun a ha => by simp [h a ha])
  rw [if_pos (by simp [hf])]

/-- A record whose creation timestamp parses to a time at or after the
retention cutoff, i.e. one the retention floor protects. -/
def youngerThanRetentionFloor (s : StorageSettings) (now : Int) (p : Pdf) : Bool :=
  match p.createdAt with
  | some t => decide (retentionFloor s now ≤ t)
  | none => false

/-- C1: no invocation of the storage cleanup ever deletes a record whose
creation timestamp parses to a time at or after the retention cutoff
`now - min_retention_hours`; in particular, when every stored record is
younger than the retention floor, the cleanup deletes nothing, reports zero
deletions, and leaves the store unchanged. -/
theorem cleanup_respects_retention_floor (s : StorageSettings) (now : Int) :
    (∀ (pdfs : List Pdf) (p : Pdf), p ∈ performSmartCleanup s now pdfs →
      ∀ t : Int, p.createdAt = some t → t < retentionFloor s now) ∧
    (∀ st : PdfStore,
      (∀ kv ∈ st, youngerThanRetentionFloor s now (kv.2 : Pdf) = true) →
      performSmartCleanup s now (getAllPdfDocuments st) = [] ∧
      (checkAndCleanupStorage s now st).1.deletedCount = 0 ∧
      (checkAndCleanupStorage s now st).2 = st) := by
  constructor
  · intro pdfs p hp t ht
    have h := (mem_performSmartCleanup hp).2
    rw [isDeletable, ht] at h
    exact of_decide_eq_true h
  · intro st hyoung
    have hprot : ∀ p ∈ getAllPdfDocuments st, isDeletable s now p = false := by
      intro p hp
      have hv : p ∈ st.map Prod.snd := (getAllPdfDocuments_perm st).mem_iff.mp hp
      rcases List.mem_map.mp hv with ⟨kv, hkv, rfl⟩
      have hy := hyoung kv hkv
      rw [youngerThanRetentionFloor] at hy
      rw [isDeletable]
      cases hca : (kv.2 : Pdf).createdAt with
      | none => rw [hca] at hy; exact absurd hy (by simp)
      | some t =>
        rw [hca] at hy
        have := of_decide_eq_true hy
        simp only [decide_eq_false_iff_not]
        omega
    have hnil : performSmartCleanup s now (getAllPdfDocuments st) = [] :=
      performSmartCleanup_eq_nil_of_protected hprot
    have hnil2 : performSmartCleanup s now (getStorageStats st).pdfs = [] := hnil
    refine ⟨hnil, ?_, ?_⟩
    · unfold checkAndCleanupStorage
      simp only [hnil2, List.foldl_nil, List.length_nil]
      split <;> rfl
    · unfold checkAndCleanupStorage
      simp only [hnil2, List.foldl_nil]
      split <;> rfl

theorem cleanup_respects_retention_floor_witness :
    performSmartCleanup defaultStorageSettings 1000000 (getAllPdfDocuments freshStore51) = [] ∧
    (checkAndCleanupStorage defaultStorageSettings 1000000 freshStore51).1.deletedCount = 0 ∧
    (checkAndCleanupStorage defaultStorageSettings 1000000 freshStore51).2 = freshStore51 :=
  (cleanup_respects_retention_floor defaultStorageSettings 1000000).2 freshStore51
    (by decide)

/-! Helper lemmas for counting deletions through the store. -/

theorem cleanupLoop_first {maxCount : Int} {maxSizeMb : ℚ} {batchSize : Nat}
    {rest : List Pdf} {count : Int} {sizeMb : ℚ}
    (h1 : ¬(rest = [] ∨ batchSize = 0))
    (h2 : count - ((rest.take batchSize).length : Int) ≤ maxCount ∧
      sizeMb - (((rest.take batchSize).map Pdf.fileSize).sum : ℚ) / (1024 * 1024) ≤ maxSizeMb) :
    cleanupLoop maxCount maxSizeMb batchSize rest count sizeMb = rest.take batchSize := by
  unfold cleanupLoop
  rw [dif_neg h1, if_pos h2]

theorem foldl_delete_eq_filter (del : List Pdf) :
    ∀ st : PdfStore, (∀ p ∈ del, p.id ≠ "") →
      del.foldl (fun acc p => if p.id ≠ "" then deletePdfDocument acc p.id else acc) st
        = st.filter (fun kv => !decide (kv.1 ∈ del.map Pdf.id)) := by
  induction del with
  | nil => intro st _; simp
  | cons p ps ih =>
    intro st hne
    have hp : p.id ≠ "" := hne p (List.mem_cons_self p ps)
    simp only [List.foldl_cons, if_pos hp]
    rw [ih (deletePdfDocument st p.id) (fun q hq => hne q (List.mem_cons_of_mem p hq))]
    unfold deletePdfDocument
    rw [List.filter_filter]
    apply List.filter_congr
    intro kv _
    by_cases h1 : kv.1 = p.id <;> by_cases h2 : kv.1 ∈ ps.map Pdf.id <;>
      simp [h1, h2]

theorem filter_key_mem_length (st : PdfStore) (ids : List String)
    (hkeys : (st.map Prod.fst).Nodup) (hsub : ∀ i ∈ ids, i ∈ st.map Prod.fst)
    (hnd : ids.Nodup) :
    (st.filter (fun kv => decide (kv.1 ∈ ids))).length = ids.length := by
  have h1 : ((st.map Prod.fst).filter (fun k => decide (k ∈ ids))).Perm ids := by
    rw [List.perm_ext_iff_of_nodup (hkeys.filter _) hnd]
    intro a
    simp only [List.mem_filter, decide_eq_true_eq]
    exact ⟨fun h => h.2, fun h => ⟨hsub a h, h⟩⟩
  have h2 : List.filter (fun k => decide (k ∈ ids)) (List.map Prod.fst st)
      = List.map Prod.fst (List.filter (fun kv => decide (kv.1 ∈ ids)) st) :=
    List.filter_map Prod.fst st
  have h3 := h1.length_eq
  rw [h2, List.length_map] at h3
  exact h3

theorem length_filter_key_not_mem (st : PdfStore) (ids : List String)
    (hkeys : (st.map Prod.fst).Nodup) (hsub : ∀ i ∈ ids, i ∈ st.map Prod.fst)
    (hnd : ids.Nodup) :
    (st.filter (fun kv => !decide (kv.1 ∈ ids))).length = st.length - ids.length := by
  have hsplit : st.length = (st.filter (fun kv => decide (kv.1 ∈ ids))).length
      + (st.filter (fun kv => !decide (kv.1 ∈ ids))).length :=
    List.length_eq_length_filter_add _
  have hmem := filter_key_mem_length st ids hkeys hsub hnd
  omega

theorem insertByPriorityDesc_pairwise (now : Int) (x : Pdf) :
    ∀ l : List Pdf,
      l.Pairwise (fun a b => deletionPriority now b ≤ deletionPriority now a) →
      (insertByPriorityDesc now x l).Pairwise
        (fun a b => deletionPriority now b ≤ deletionPriority now a) := by
  intro l
  induction l with
  | nil =>
    intro _
    simp [insertByPriorityDesc]
  | cons y ys ih =>
    intro hl
    rw [List.pairwise_cons] at hl
    unfold insertByPriorityDesc
    split
    · rename_i hxy
      refine List.Pairwise.cons ?_ (List.Pairwise.cons hl.1 hl.2)
      intro z hz
      rcases List.mem_cons.mp hz with rfl | hzys
      · exact le_of_lt hxy
      · exact le_trans (hl.1 z hzys) (le_of_lt hxy)
    · rename_i hxy
      refine List.Pairwise.cons ?_ (ih hl.2)
      intro z hz
      have hz2 : z = x ∨ z ∈ ys := by
        have := (insertByPriorityDesc_perm now x ys).mem_iff.mp hz
        simpa using this
      rcases hz2 with rfl | hzys
      · exact not_lt.mp hxy
      · exact hl.1 z hzys

theorem prioritizePdfsForDeletion_pairwise (now : Int) (l : List Pdf) :
    (prioritizePdfsForDeletion now l).Pairwise
      (fun a b => deletionPriority now b ≤ deletionPriority now a) := by
  suffices h : ∀ (l acc : List Pdf),
      acc.Pairwise (fun a b => deletionPriority now b ≤ deletionPriority now a) →
      (l.foldl (fun a x => insertByPriorityDesc now x a) acc).Pairwise
        (fun a b => deletionPriority now b ≤ deletionPriority now a) from
    h l [] List.Pairwise.nil
  intro l
  induction l with
  | nil => intro acc hacc; exact hacc
  | cons x xs ih =>
    intro acc hacc
    exact ih _ (insertByPriorityDesc_pairwise now x acc hacc)

theorem pairwise_take_le_drop (now : Int) (l : List Pdf) (n : Nat)
    (hl : l.Pairwise (fun a b => deletionPriority now b ≤ deletionPriority now a)) :
    ∀ p ∈ l.take n, ∀ q ∈ l.drop n, deletionPriority now q ≤ deletionPriority now p := by
  rw [← List.take_append_drop n l, List.pairwise_append] at hl
  exact hl.2.2

/-- General form of the 51-document scenario: the batch loop checks the
limits only after a complete batch, so one batch of ten is deleted — the
head of the priority-descending ordering, whose members score at least as
high as every surviving record. -/
theorem cleanup_batch_scenario_aux (st : PdfStore) (now : Int)
    (hlen : st.length = 51)
    (hkeys : (st.map Prod.fst).Nodup)
    (hids : ∀ kv ∈ st, kv.1 = (kv.2 : Pdf).id)
    (hne : ∀ kv ∈ st, (kv.2 : Pdf).id ≠ "")
    (hold : ∀ kv ∈ st, isDeletable defaultStorageSettings now (kv.2 : Pdf) = true)
    (hsize : totalSizeBytes (st.map Prod.snd) ≤ 5000 * 1024 * 1024) :
    (checkAndCleanupStorage defaultStorageSettings now st).1.deletedCount = 10 ∧
    (checkAndCleanupStorage defaultStorageSettings now st).1.finalCount = 41 ∧
    performSmartCleanup defaultStorageSettings now (getAllPdfDocuments st)
      = (prioritizePdfsForDeletion now (getAllPdfDocuments st)).take 10 ∧
    (∀ p ∈ performSmartCleanup defaultStorageSettings now (getAllPdfDocuments st),
      ∀ q ∈ getAllPdfDocuments st,
        q ∉ performSmartCleanup defaultStorageSettings now (getAllPdfDocuments st) →
        deletionPriority now q ≤ deletionPriority now p) := by
  have hperm : (getAllPdfDocuments st).Perm (st.map Prod.snd) := getAllPdfDocuments_perm st
  have hslen : (getAllPdfDocuments st).length = 51 := by
    rw [hperm.length_eq, List.length_map, hlen]
  have hallDel : ∀ p ∈ getAllPdfDocuments st,
      isDeletable defaultStorageSettings now p = true := by
    intro p hp
    rcases List.mem_map.mp (hperm.mem_iff.mp hp) with ⟨kv, hkv, rfl⟩
    exact hold kv hkv
  have hfil : (getAllPdfDocuments st).filter (isDeletable defaultStorageSettings now)
      = getAllPdfDocuments st := List.filter_eq_self.mpr hallDel
  have hprioperm : (prioritizePdfsForDeletion now (getAllPdfDocuments st)).Perm
      (getAllPdfDocuments st) := prioritizePdfsForDeletion_perm now _
  have hpriolen : (prioritizePdfsForDeletion now (getAllPdfDocuments st)).length = 51 := by
    rw [hprioperm.length_eq, hslen]
  have hnonnil : getAllPdfDocuments st ≠ [] := by
    intro h; rw [h] at hslen; simp at hslen
  have hsum : totalSizeBytes (getAllPdfDocuments st) = totalSizeBytes (st.map Prod.snd) := by
    unfold totalSizeBytes
    exact (hperm.map Pdf.fileSize).sum_eq
  have hsizeQ : ((totalSizeBytes (st.map Prod.snd) : ℚ)) / (1024 * 1024) ≤ 5000 := by
    rw [div_le_iff₀ (by norm_num : (0 : ℚ) < 1024 * 1024)]
    calc ((totalSizeBytes (st.map Prod.snd) : ℚ))
        ≤ ((5000 * 1024 * 1024 : Nat) : ℚ) := by exact_mod_cast hsize
      _ = 5000 * (1024 * 1024) := by norm_num
  have htklen : ((prioritizePdfsForDeletion now (getAllPdfDocuments st)).take 10).length = 10 := by
    rw [List.length_take, hpriolen]
    decide
  have hcleanup : performSmartCleanup defaultStorageSettings now (getAllPdfDocuments st)
      = (prioritizePdfsForDeletion now (getAllPdfDocuments st)).take 10 := by
    unfold performSmartCleanup
    rw [hfil, if_neg (by simp [List.isEmpty_iff, hnonnil])]
    have hbs : min defaultStorageSettings.cleanupBatchSize
        (prioritizePdfsForDeletion now (getAllPdfDocuments st)).length = 10 := by
      rw [hpriolen]; rfl
    rw [hbs]
    apply cleanupLoop_first
    · rw [not_or]
      refine ⟨fun h => ?_, by decide⟩
      rw [h] at hpriolen; simp at hpriolen
    · constructor
      · rw [htklen, hslen]
        norm_num [defaultStorageSettings]
      · have hbatch : (0 : ℚ) ≤
            ((((prioritizePdfsForDeletion now (getAllPdfDocuments st)).take 10).map
              Pdf.fileSize).sum : ℚ) / (1024 * 1024) := by positivity
        have hs0 : ((totalSizeBytes (getAllPdfDocuments st) : ℚ)) / (1024 * 1024) ≤ 5000 := by
          rw [hsum]; exact hsizeQ
        have : ((defaultStorageSettings.maxStorageSizeMb : Nat) : ℚ) = 5000 := by
          norm_num [defaultStorageSettings]
        rw [this]
        linarith
  -- membership and id facts about the deleted batch
  have hdelsub : ∀ p ∈ (prioritizePdfsForDeletion now (getAllPdfDocuments st)).take 10,
      p ∈ st.map Prod.snd := by
    intro p hp
    exact hperm.mem_iff.mp (hprioperm.mem_iff.mp (List.take_subset _ _ hp))
  have hdelne : ∀ p ∈ (prioritizePdfsForDeletion now (getAllPdfDocuments st)).take 10,
      p.id ≠ "" := by
    intro p hp
    rcases List.mem_map.mp (hdelsub p hp) with ⟨kv, hkv, rfl⟩
    exact hne kv hkv
  have hkeysid : st.map Prod.fst = (st.map Prod.snd).map Pdf.id := by
    rw [List.map_map]
    exact List.map_congr_left hids
  have hidnodup : ((prioritizePdfsForDeletion now (getAllPdfDocuments st)).map Pdf.id).Nodup := by
    have h1 : ((st.map Prod.snd).map Pdf.id).Nodup := by rw [← hkeysid]; exact hkeys
    have h2 : ((getAllPdfDocuments st).map Pdf.id).Nodup :=
      ((hperm.map Pdf.id).nodup_iff).mpr h1
    exact ((hprioperm.map Pdf.id).nodup_iff).mpr h2
  have hdnd : (((prioritizePdfsForDeletion now (getAllPdfDocuments st)).take 10).map
      Pdf.id).Nodup :=
    ((List.take_sublist 10 _).map Pdf.id).nodup hidnodup
  have hdsub : ∀ i ∈ ((prioritizePdfsForDeletion now (getAllPdfDocuments st)).take 10).map
      Pdf.id, i ∈ st.map Prod.fst := by
    intro i hi
    rcases List.mem_map.mp hi with ⟨p, hp, rfl⟩
    rw [hkeysid]
    exact List.mem_map_of_mem Pdf.id (hdelsub p hp)
  have hidslen : (((prioritizePdfsForDeletion now (getAllPdfDocuments st)).take 10).map
      Pdf.id).length = 10 := by
    rw [List.length_map, htklen]
  -- the store after the deletions
  have hfold := foldl_delete_eq_filter
    ((prioritizePdfsForDeletion now (getAllPdfDocuments st)).take 10) st hdelne
  have hfinal : (List.foldl (fun acc p => if p.id ≠ "" then deletePdfDocument acc p.id else acc)
      st ((prioritizePdfsForDeletion now (getAllPdfDocuments st)).take 10)).length = 41 := by
    rw [hfold]
    rw [length_filter_key_not_mem st _ hkeys hdsub hdnd]
    rw [hlen, hidslen]
  -- evaluate the route
  have hpdfs : (getStorageStats st).pdfs = getAllPdfDocuments st := rfl
  have htot : (getStorageStats st).totalPdfs = 51 := hslen
  have hcond : (decide ((getStorageStats st).totalPdfs > defaultStorageSettings.maxStoredPdfs)
      || decide ((getStorageStats st).totalSizeMb
        > (defaultStorageSettings.maxStorageSizeMb : ℚ))) = true := by
    rw [htot]
    norm_num [defaultStorageSettings]
  refine ⟨?_, ?_, hcleanup, ?_⟩
  · unfold checkAndCleanupStorage
    simp only [hcond, eq_self_iff_true, if_true]
    show (performSmartCleanup defaultStorageSettings now (getStorageStats st).pdfs).length = 10
    rw [hpdfs, hcleanup, htklen]
  · unfold checkAndCleanupStorage
    simp only [hcond, eq_self_iff_true, if_true]
    show (getStorageStats (List.foldl
      (fun acc p => if p.id ≠ "" then deletePdfDocument acc p.id else acc) st
      (performSmartCleanup defaultStorageSettings now (getStorageStats st).pdfs))).totalPdfs = 41
    rw [hpdfs, hcleanup]
    show (getAllPdfDocuments _).length = 41
    rw [(getAllPdfDocuments_perm _).length_eq, List.length_map]
    exact hfinal
  · intro p hp q hq hqnot
    rw [hcleanup] at hp hqnot
    have hq2 : q ∈ prioritizePdfsForDeletion now (getAllPdfDocuments st) :=
      hprioperm.mem_iff.mpr hq
    have hq3 : q ∈ (prioritizePdfsForDeletion now (getAllPdfDocuments st)).take 10 ++
        (prioritizePdfsForDeletion now (getAllPdfDocuments st)).drop 10 := by
      rw [List.take_append_drop]
      exact hq2
    have hqdrop : q ∈ (prioritizePdfsForDeletion now (getAllPdfDocuments st)).drop 10 := by
      rcases List.mem_append.mp hq3 with h | h
      · exact absurd h hqnot
      · exact h
    exact pairwise_take_le_drop now _ 10
      (prioritizePdfsForDeletion_pairwise now _) p hp q hqdrop

/-- C2, counterexample: with 51 stored documents, `max_stored_pdfs = 50`
and every document older than the retention floor, the cleanup deletes a
whole batch of `cleanup_batch_size = 10` documents (the within-limits test
only runs after a complete batch), leaving 41 — not exactly one document
leaving 50 as the claim states. -/
theorem cleanup_fifty_one_docs_counterexample :
    (checkAndCleanupStorage defaultStorageSettings 1000000 oldStore51).1.deletedCount = 10 ∧
    (checkAndCleanupStorage defaultStorageSettings 1000000 oldStore51).1.finalCount = 41 ∧
    ¬ ((checkAndCleanupStorage defaultStorageSettings 1000000 oldStore51).1.deletedCount = 1 ∧
       (checkAndCleanupStorage defaultStorageSettings 1000000 oldStore51).1.finalCount = 50) := by
  have h := cleanup_batch_scenario_aux oldStore51 1000000 (by decide) (by decide)
    (by decide) (by decide) (by decide) (by decide)
  exact ⟨h.1, h.2.1, fun hc => absurd (hc.1.symm.trans h.1) (by decide)⟩

/-- C2, amended: with 51 stored documents whose keys are their (non-empty,
duplicate-free) ids, all older than the retention floor (eligible for
deletion), and a total size within the size limit, running the cleanup
removes exactly one full batch of `cleanup_batch_size = 10` documents and
leaves exactly 41 documents stored; the deleted records are the ten with
the highest eviction scores: they are precisely the first ten of the
priority-descending ordering, and each deleted record scores at least as
high as every record that survives. -/
theorem cleanup_fifty_one_docs_deletes_batch (st : PdfStore) (now : Int)
    (hlen : st.length = 51)
    (hkeys : (st.map Prod.fst).Nodup)
    (hids : ∀ kv ∈ st, kv.1 = (kv.2 : Pdf).id)
    (hne : ∀ kv ∈ st, (kv.2 : Pdf).id ≠ "")
    (hold : ∀ kv ∈ st, isDeletable defaultStorageSettings now (kv.2 : Pdf) = true)
    (hsize : totalSizeBytes (st.map Prod.snd) ≤ 5000 * 1024 * 1024) :
    (checkAndCleanupStorage defaultStorageSettings now st).1.deletedCount = 10 ∧
    (checkAndCleanupStorage defaultStorageSettings now st).1.finalCount = 41 ∧
    performSmartCleanup defaultStorageSettings now (getAllPdfDocuments st)
      = (prioritizePdfsForDeletion now (getAllPdfDocuments st)).take 10 ∧
    (∀ p ∈ performSmartCleanup defaultStorageSettings now (getAllPdfDocuments st),
      ∀ q ∈ getAllPdfDocuments st,
        q ∉ performSmartCleanup defaultStorageSettings now (getAllPdfDocuments st) →
        deletionPriority now q ≤ deletionPriority now p) :=
  cleanup_batch_scenario_aux st now hlen hkeys hids hne hold hsize

/-- Witness for C2 (amended) at the concrete 51-record store: ten deleted,
41 left, and the deleted records are the head of the priority-descending
ordering. -/
theorem cleanup_fifty_one_docs_deletes_batch_witness :
    (checkAndCleanupStorage defaultStorageSettings 1000000 oldStore51).1.deletedCount = 10 ∧
    (checkAndCleanupStorage defaultStorageSettings 1000000 oldStore51).1.finalCount = 41 ∧
    performSmartCleanup defaultStorageSettings 1000000 (getAllPdfDocuments oldStore51)
      = (prioritizePdfsForDeletion 1000000 (getAllPdfDocuments oldStore51)).take 10 :=
  have h := cleanup_fifty_one_docs_deletes_batch oldStore51 1000000 (by decide) (by decide)
    (by decide) (by decide) (by decide) (by decide)
  ⟨h.1, h.2.1, h.2.2.1⟩

/-! Lemmas about the association-list store, and the job-lifecycle claims. -/

theorem find?_map_replace {α : Type} (l : List (String × α)) (k : String) (v : α)
    (h : l.any (fun kv => kv.1 = k) = true) :
    (l.map (fun kv => if kv.1 = k then (k, v) else kv)).find? (fun kv => kv.1 = k)
      = some (k, v) := by
  induction l with
  | nil => simp at h
  | cons kv kvs ih =>
    by_cases hk : kv.1 = k
    · simp [List.map_cons, if_pos hk, List.find?]
    · have htail : kvs.any (fun kv => kv.1 = k) = true := by
        rcases List.any_eq_true.mp h with ⟨x, hx, hxk⟩
        rcases List.mem_cons.mp hx with he | ht
        · subst he; exact absurd (of_decide_eq_true hxk) hk
        · exact List.any_eq_true.mpr ⟨x, ht, hxk⟩
      simpa [List.map_cons, if_neg hk, List.find?, hk] using ih htail

theorem find?_append_single {α : Type} (l : List (String × α)) (k : String) (v : α)
    (h : l.any (fun kv => kv.1 = k) = false) :
    (l ++ [(k, v)]).find? (fun kv => kv.1 = k) = some (k, v) := by
  induction l with
  | nil => simp [List.find?]
  | cons kv kvs ih =>
    rw [List.any_cons, Bool.or_eq_false_iff] at h
    have hk : ¬ (kv.1 = k) := by simpa using h.1
    simpa [List.cons_append, List.find?, hk] using ih h.2

theorem lookupAssoc_upsertAssoc {α : Type} (l : List (String × α)) (k : String) (v : α) :
    lookupAssoc (upsertAssoc l k v) k = some v := by
  unfold upsertAssoc lookupAssoc
  by_cases h : l.any (fun kv => kv.1 = k)
  · rw [if_pos h, find?_map_replace l k v h]
    rfl
  · rw [if_neg h, find?_append_single l k v (by simp only [Bool.not_eq_true] at h; exact h)]
    rfl

/-- C3 (code behavior at the failing input): a pending job whose engine
invocation raises is NOT marked `failed`; because `_convert_pdf_sync`
swallows the exception and `process_conversion_job` never consults the
returned `success` flag, the job ends `completed` with progress 100, a null
output path, and no error message — the exception text "boom" is discarded. -/
theorem engine_exception_yields_completed_job :
    (lookupJob (processConversionJob exampleRedisStore "job_1" (EngineOutcome.raises "boom") 500)
        "job_1").map (fun j => (j.status, j.outputFilePath, j.errorMessage, j.progress))
      = some (ConversionStatus.completed, none, none, 100) := by
  decide

/-- C4 (code behavior at the failing input): a job reachable through the
public route (created via `create_conversion_job`, then processed in the
background with an engine exception) ends with `status = completed` and a
null `output_file_path`, violating the claimed invariant that a completed
job has a non-null output path. -/
theorem completed_job_with_null_output_reachable :
    (lookupJob exampleTraceStore "job_1").map
        (fun j => (j.status, j.progress, j.outputFilePath))
      = some (ConversionStatus.completed, 100, none) := by
  decide

/-- C7, counterexample: on a freshly created pending job (progress 0) the
begin transition sets the status to `processing` and stamps `started_at`,
but it does not write any progress value — the progress stays 0, not a
non-zero liveness value as the claim states. -/
theorem begin_leaves_progress_zero_counterexample :
    ((beginConversionJob exampleRedisStore "job_1" 500).2.map
        (fun j => (j.status, j.startedAt, j.progress)))
      = some (ConversionStatus.processing, some 500, 0) ∧
    (lookupJob (beginConversionJob exampleRedisStore "job_1" 500).1 "job_1").map
        JobRecord.progress = some 0 := by
  decide

/-- C7, amended: for every existing job, the begin transition sets the
status to `processing` and `started_at` to the current instant, and leaves
the progress unchanged (in particular a freshly created job keeps progress
0 — no non-zero initial value is written); when the job record has
disappeared, begin returns without modifying the store and without
raising. -/
theorem begin_transition_behavior (st : RedisStore) (jobId : String) (now : Int) :
    (∀ job, lookupJob st jobId = some job →
      (beginConversionJob st jobId now).2 =
        some { job with status := ConversionStatus.processing, startedAt := some now } ∧
      lookupJob (beginConversionJob st jobId now).1 jobId =
        some { job with status := ConversionStatus.processing, startedAt := some now } ∧
      ({ job with
          status := ConversionStatus.processing
          startedAt := some now } : JobRecord).progress = job.progress) ∧
    (lookupJob st jobId = none → beginConversionJob st jobId now = (st, none)) := by
  constructor
  · intro job hjob
    refine ⟨?_, ?_, rfl⟩
    · unfold beginConversionJob
      rw [hjob]
    · unfold beginConversionJob
      rw [hjob]
      show lookupAssoc (upsertAssoc st.jobs jobId _) jobId = _
      rw [lookupAssoc_upsertAssoc]
  · intro h
    unfold beginConversionJob
    rw [h]

/-- Witness for C7 (amended) at the concrete pending job. -/
theorem begin_transition_behavior_witness :
    (beginConversionJob exampleRedisStore "job_1" 500).2 =
      some { exampleJobPending with
             status := ConversionStatus.processing
             startedAt := some 500 } ∧
    lookupJob (beginConversionJob exampleRedisStore "job_1" 500).1 "job_1" =
      some { exampleJobPending with
             status := ConversionStatus.processing
             startedAt := some 500 } ∧
    ({ exampleJobPending with
        status := ConversionStatus.processing
        startedAt := some 500 } : JobRecord).progress = exampleJobPending.progress :=
  (begin_transition_behavior exampleRedisStore "job_1" 500).1 exampleJobPending (by decide)

/-- C5: when AI assistance is enabled with a named service that requires a
credential and no credential is present on the request, in the stored user
settings, or in the process environment, job creation fails with the
missing-credential error (the 400 configuration error), the store is
returned unchanged — no counter increment, no job record — and a
subsequent job listing is identical. -/
theorem create_job_missing_credential_rejected (st : RedisStore)
    (req : ConversionJobCreate) (us : Option UserSettingsRecord) (env : EnvSettings)
    (now : Int)
    (hpdf : ∃ pdfRec, lookupPdf st.pdfs req.pdfDocumentId = some pdfRec)
    (hfmt : ∃ fmt, parseOutputFormat (resolveJobOptions req us).outputFormat = some fmt)
    (hllm : (resolveJobOptions req us).useLlm = true)
    (hsvc : optStrTruthy (resolveJobOptions req us).llmService = true)
    (hnoLocal :
      charsContain "ollama".toList (pyLower ((resolveJobOptions req us).llmService.getD ""))
        = false ∧
      charsContain "vertex".toList (pyLower ((resolveJobOptions req us).llmService.getD ""))
        = false)
    (hreqKeys : optStrTruthy req.geminiApiKey = false ∧
      optStrTruthy req.openaiApiKey = false ∧ optStrTruthy req.claudeApiKey = false)
    (husKeys : userSettingsGeminiTruthy us = false ∧
      userSettingsOpenaiTruthy us = false ∧ userSettingsClaudeTruthy us = false)
    (henvKeys : optStrTruthy env.geminiApiKey = false ∧
      optStrTruthy env.openaiApiKey = false ∧ optStrTruthy env.claudeApiKey = false) :
    createConversionJob st req us env now = (st, .error CreateJobError.apiKeyRequired) ∧
    listJobs (createConversionJob st req us env now).1 = listJobs st := by
  obtain ⟨pdfRec, hpdfEq⟩ := hpdf
  obtain ⟨fmt, hfmtEq⟩ := hfmt
  have hkey : apiKeyAvailable req us env ((resolveJobOptions req us).llmService.getD "")
      = false := by
    unfold apiKeyAvailable
    by_cases h1 : charsContain "gemini".toList
        (pyLower ((resolveJobOptions req us).llmService.getD "")) = true
    · rw [if_pos h1]
      simp [hreqKeys.1, husKeys.1, henvKeys.1]
    · rw [if_neg h1]
      by_cases h2 : charsContain "openai".toList
          (pyLower ((resolveJobOptions req us).llmService.getD "")) = true
      · rw [if_pos h2]
        simp [hreqKeys.2.1, husKeys.2.1, henvKeys.2.1]
      · rw [if_neg h2]
        by_cases h3 : charsContain "claude".toList
            (pyLower ((resolveJobOptions req us).llmService.getD "")) = true
        · rw [if_pos h3]
          simp [hreqKeys.2.2, husKeys.2.2, henvKeys.2.2]
        · rw [if_neg h3]
          have hcond : (charsContain "ollama".toList
              (pyLower ((resolveJobOptions req us).llmService.getD "")) ||
              charsContain "vertex".toList
              (pyLower ((resolveJobOptions req us).llmService.getD ""))) = false := by
            rw [hnoLocal.1, hnoLocal.2]; rfl
          rw [if_neg (by rw [hcond]; exact Bool.false_ne_true)]
  have hmain : createConversionJob st req us env now
      = (st, .error CreateJobError.apiKeyRequired) := by
    unfold createConversionJob
    rw [hpdfEq]
    simp only [hfmtEq]
    rw [if_pos (by simp [hllm, hsvc, hkey])]
  exact ⟨hmain, by rw [hmain]⟩

/-- Witness for C5: a request enabling AI with the Gemini service and no
credential anywhere is rejected without touching the store. -/
theorem create_job_missing_credential_rejected_witness :
    createConversionJob exampleBaseStore exampleNoKeyReq none exampleEnv 100
      = (exampleBaseStore, .error CreateJobError.apiKeyRequired) ∧
    listJobs (createConversionJob exampleBaseStore exampleNoKeyReq none exampleEnv 100).1
      = listJobs exampleBaseStore :=
  create_job_missing_credential_rejected exampleBaseStore exampleNoKeyReq none exampleEnv 100
    ⟨examplePdfDoc, by decide⟩ ⟨OutputFormat.markdown, by decide⟩ (by decide) (by decide)
    (by decide) (by decide) (by decide) (by decide)

/-- C6 (code behavior at the failing input): the request explicitly selects
the Claude service, but because `use_llm` is absent and the stored settings
default AI assistance on with a Gemini default service, the resolver
replaces the request value — the created job carries the settings default,
not the explicitly supplied request value. -/
theorem request_llm_service_overridden_by_settings :
    reqOverride.llmService = some "marker.services.claude.ClaudeService" ∧
    (resolveJobOptions reqOverride (some usOverride)).llmService
      = some "marker.services.gemini.GoogleGeminiService" ∧
    (match (createConversionJob exampleBaseStore reqOverride (some usOverride)
        exampleEnv 100).2 with
      | Except.ok j => j.llmService
      | Except.error _ => none)
      = some "marker.services.gemini.GoogleGeminiService" := by
  decide

/-- C10: `save_pdf_document` overwrites both `created_at` and `updated_at`
of the stored record with the current instant, whatever creation time the
supplied data carried; as a consequence the freshly saved record is not
deletable at that instant (the retention-floor check protects it for any
settings), is never among the records removed by a cleanup run at that
instant, and its age-in-days factor in the eviction score is zero. -/
theorem save_pdf_document_resets_timestamps (now : Int) (pdfId : String) (data : Pdf)
    (st : PdfStore) (r : Pdf)
    (hr : lookupPdf (savePdfDocument now pdfId data st) pdfId = some r) :
    r.createdAt = some now ∧ r.updatedAt = some now ∧
    (∀ s : StorageSettings, isDeletable s now r = false) ∧
    (∀ (s : StorageSettings) (pdfs : List Pdf), r ∉ performSmartCleanup s now pdfs) ∧
    (∀ t : Int, r.createdAt = some t → timedeltaDays now t = 0) := by
  have hre : r = savePdfRecord now data := by
    unfold savePdfDocument lookupPdf at hr
    rw [lookupAssoc_upsertAssoc] at hr
    exact (Option.some_inj.mp hr).symm
  subst hre
  have hcr : (savePdfRecord now data).createdAt = some now := rfl
  have hdel : ∀ s : StorageSettings, isDeletable s now (savePdfRecord now data) = false := by
    intro s
    unfold isDeletable
    rw [hcr]
    simp only [decide_eq_false_iff_not, retentionFloor]
    have : (0 : Int) ≤ (s.minRetentionHours : Int) * 3600 := by positivity
    omega
  refine ⟨hcr, rfl, hdel, ?_, ?_⟩
  · intro s pdfs hmem
    have := (mem_performSmartCleanup hmem).2
    rw [hdel s] at this
    exact Bool.false_ne_true this
  · intro t ht
    rw [hcr] at ht
    have hth : t = now := Option.some_inj.mp ht.symm
    subst hth
    unfold timedeltaDays
    simp

/-- Witness for C10: saving a record that carries `created_at = 0` at
instant 777 stores it with both timestamps equal to 777, and the saved
record is not deletable at that instant. -/
theorem save_pdf_document_resets_timestamps_witness :
    (savePdfRecord 777 (oldExamplePdf 0)).createdAt = some 777 ∧
    (savePdfRecord 777 (oldExamplePdf 0)).updatedAt = some 777 ∧
    isDeletable defaultStorageSettings 777 (savePdfRecord 777 (oldExamplePdf 0)) = false :=
  have h := save_pdf_document_resets_timestamps 777 "0" (oldExamplePdf 0) []
    (savePdfRecord 777 (oldExamplePdf 0)) (by decide)
  ⟨h.1, h.2.1, h.2.2.1 defaultStorageSettings⟩

/-- C8: deleting a document removes every conversion job referencing it and
each such job's output directory, as well as the document's file and row:
afterwards no surviving job row references the deleted document, the
referencing jobs' directories are gone, the document row is gone, and the
looked-up document's file is gone. -/
theorem delete_pdf_cascades_to_jobs (outputDir : String) (db : Db) (pdfId : Int) (db' : Db)
    (h : deletePdf outputDir db pdfId = .ok db') :
    (∀ j ∈ db'.jobs, j.pdfDocumentId ≠ pdfId) ∧
    (∀ j ∈ db.jobs, j.pdfDocumentId = pdfId → getJobDir outputDir j.id ∉ db'.dirs) ∧
    (∀ p ∈ db'.pdfs, p.id ≠ pdfId) ∧
    (∃ pdf, db.pdfs.find? (fun p => p.id = pdfId) = some pdf ∧
      pdf.filePath ∉ db'.files) := by
  unfold deletePdf at h
  cases hf : db.pdfs.find? (fun p => p.id = pdfId) with
  | none => rw [hf] at h; exact absurd h (by simp)
  | some pdf =>
    rw [hf] at h
    have hdb : db' = { pdfs := db.pdfs.filter (fun p => p.id ≠ pdfId)
                       jobs := db.jobs.filter (fun j => j.pdfDocumentId ≠ pdfId)
                       dirs := db.dirs.filter (fun d =>
                         !((db.jobs.filter (fun j => j.pdfDocumentId = pdfId)).map
                             (fun j => getJobDir outputDir j.id)).contains d)
                       files := db.files.filter (fun f => f ≠ pdf.filePath) } := by
      cases h; rfl
    subst hdb
    refine ⟨?_, ?_, ?_, ?_⟩
    · intro j hj
      have := (List.mem_filter.mp hj).2
      simpa using this
    · intro j hj hjid hmem
      have hdir := (List.mem_filter.mp hmem).2
      have hin : getJobDir outputDir j.id ∈
          (db.jobs.filter (fun j => j.pdfDocumentId = pdfId)).map
            (fun j => getJobDir outputDir j.id) :=
        List.mem_map_of_mem _ (List.mem_filter.mpr ⟨hj, by simp [hjid]⟩)
      simp [hin] at hdir
    · intro p hp
      have := (List.mem_filter.mp hp).2
      simpa using this
    · refine ⟨pdf, rfl, fun hmem => ?_⟩
      have := (List.mem_filter.mp hmem).2
      simp at this

/-- Witness for C8 at a concrete relational store with two jobs referencing
the deleted document and one unrelated job. -/
theorem delete_pdf_cascades_to_jobs_witness :
    getJobDir "outputs" 1 ∉ exampleDbAfter.dirs ∧
    getJobDir "outputs" 2 ∉ exampleDbAfter.dirs ∧
    "uploads/a.pdf" ∉ exampleDbAfter.files := by
  have hok : deletePdf "outputs" exampleDb 7 = .ok exampleDbAfter := by rfl
  have h := delete_pdf_cascades_to_jobs "outputs" exampleDb 7 exampleDbAfter hok
  refine ⟨?_, ?_, ?_⟩
  · exact h.2.1 { id := 1, pdfDocumentId := 7 } (by decide) rfl
  · exact h.2.1 { id := 2, pdfDocumentId := 7 } (by decide) rfl
  · obtain ⟨pdf, hfind, hfp⟩ := h.2.2.2
    have hsome : (some pdf : Option DbPdf)
        = some { id := 7, filename := "a.pdf", filePath := "uploads/a.pdf", fileSize := 10 } := by
      rw [← hfind]; rfl
    have hpdf := Option.some_inj.mp hsome
    rw [hpdf] at hfp
    exact hfp


/-- C9: a partial update of the singleton user settings overwrites exactly
the fields present in the update (a field explicitly set — even to null —
takes the supplied value) and leaves every absent field at its previous
stored value. -/
theorem settings_update_is_partial (row : SettingsRow) (u : SettingsUpdate) :
    (u.theme = none → (applySettingsUpdate row u).theme = row.theme) ∧
    (∀ v, u.theme = some v → (applySettingsUpdate row u).theme = v) ∧
    (u.defaultLlmService = none → (applySettingsUpdate row u).defaultLlmService = row.defaultLlmService) ∧
    (∀ v, u.defaultLlmService = some v → (applySettingsUpdate row u).defaultLlmService = v) ∧
    (u.geminiApiKey = none → (applySettingsUpdate row u).geminiApiKey = row.geminiApiKey) ∧
    (∀ v, u.geminiApiKey = some v → (applySettingsUpdate row u).geminiApiKey = v) ∧
    (u.openaiApiKey = none → (applySettingsUpdate row u).openaiApiKey = row.openaiApiKey) ∧
    (∀ v, u.openaiApiKey = some v → (applySettingsUpdate row u).openaiApiKey = v) ∧
    (u.claudeApiKey = none → (applySettingsUpdate row u).claudeApiKey = row.claudeApiKey) ∧
    (∀ v, u.claudeApiKey = some v → (applySettingsUpdate row u).claudeApiKey = v) ∧
    (u.ollamaBaseUrl = none → (applySettingsUpdate row u).ollamaBaseUrl = row.ollamaBaseUrl) ∧
    (∀ v, u.ollamaBaseUrl = some v → (applySettingsUpdate row u).ollamaBaseUrl = v) ∧
    (u.ollamaModel = none → (applySettingsUpdate row u).ollamaModel = row.ollamaModel) ∧
    (∀ v, u.ollamaModel = some v → (applySettingsUpdate row u).ollamaModel = v) ∧
    (u.openaiModel = none → (applySettingsUpdate row u).openaiModel = row.openaiModel) ∧
    (∀ v, u.openaiModel = some v → (applySettingsUpdate row u).openaiModel = v) ∧
    (u.openaiBaseUrl = none → (applySettingsUpdate row u).openaiBaseUrl = row.openaiBaseUrl) ∧
    (∀ v, u.openaiBaseUrl = some v → (applySettingsUpdate row u).openaiBaseUrl = v) ∧
    (u.claudeModelName = none → (applySettingsUpdate row u).claudeModelName = row.claudeModelName) ∧
    (∀ v, u.claudeModelName = some v → (applySettingsUpdate row u).claudeModelName = v) ∧
    (u.vertexProjectId = none → (applySettingsUpdate row u).vertexProjectId = row.vertexProjectId) ∧
    (∀ v, u.vertexProjectId = some v → (applySettingsUpdate row u).vertexProjectId = v) ∧
    (u.defaultOutputFormat = none → (applySettingsUpdate row u).defaultOutputFormat = row.defaultOutputFormat) ∧
    (∀ v, u.defaultOutputFormat = some v → (applySettingsUpdate row u).defaultOutputFormat = v) ∧
    (u.defaultUseLlm = none → (applySettingsUpdate row u).defaultUseLlm = row.defaultUseLlm) ∧
    (∀ v, u.defaultUseLlm = some v → (applySettingsUpdate row u).defaultUseLlm = v) ∧
    (u.defaultForceOcr = none → (applySettingsUpdate row u).defaultForceOcr = row.defaultForceOcr) ∧
    (∀ v, u.defaultForceOcr = some v → (applySettingsUpdate row u).defaultForceOcr = v) ∧
    (u.defaultFormatLines = none → (applySettingsUpdate row u).defaultFormatLines = row.defaultFormatLines) ∧
    (∀ v, u.defaultFormatLines = some v → (applySettingsUpdate row u).defaultFormatLines = v) ∧
    (u.additionalSettings = none → (applySettingsUpdate row u).additionalSettings = row.additionalSettings) ∧
    (∀ v, u.additionalSettings = some v → (applySettingsUpdate row u).additionalSettings = v) :=
  ⟨
    fun h => by simp [applySettingsUpdate, h],
    fun v h => by simp [applySettingsUpdate, h],
    fun h => by simp [applySettingsUpdate, h],
    fun v h => by simp [applySettingsUpdate, h],
    fun h => by simp [applySettingsUpdate, h],
    fun v h => by simp [applySettingsUpdate, h],
    fun h => by simp [applySettingsUpdate, h],
    fun v h => by simp [applySettingsUpdate, h],
    fun h => by simp [applySettingsUpdate, h],
    fun v h => by simp [applySettingsUpdate, h],
    fun h => by simp [applySettingsUpdate, h],
    fun v h => by simp [applySettingsUpdate, h],
    fun h => by simp [applySettingsUpdate, h],
    fun v h => by simp [applySettingsUpdate, h],
    fun h => by simp [applySettingsUpdate, h],
    fun v h => by simp [applySettingsUpdate, h],
    fun h => by simp [applySettingsUpdate, h],
    fun v h => by simp [applySettingsUpdate, h],
    fun h => by simp [applySettingsUpdate, h],
    fun v h => by simp [applySettingsUpdate, h],
    fun h => by simp [applySettingsUpdate, h],
    fun v h => by simp [applySettingsUpdate, h],
    fun h => by simp [applySettingsUpdate, h],
    fun v h => by simp [applySettingsUpdate, h],
    fun h => by simp [applySettingsUpdate, h],
    fun v h => by simp [applySettingsUpdate, h],
    fun h => by simp [applySettingsUpdate, h],
    fun v h => by simp [applySettingsUpdate, h],
    fun h => by simp [applySettingsUpdate, h],
    fun v h => by simp [applySettingsUpdate, h],
    fun h => by simp [applySettingsUpdate, h],
    fun v h => by simp [applySettingsUpdate, h]⟩

/-- Witness for C9: the concrete update sets the theme, explicitly nulls
the Gemini key, sets the format-lines default, and leaves the default
service untouched. -/
theorem settings_update_is_partial_witness :
    (applySettingsUpdate exampleRow exampleUpdate).theme = some "dark" ∧
    (applySettingsUpdate exampleRow exampleUpdate).defaultLlmService
      = exampleRow.defaultLlmService ∧
    (applySettingsUpdate exampleRow exampleUpdate).geminiApiKey = none ∧
    (applySettingsUpdate exampleRow exampleUpdate).defaultFormatLines = some true :=
  have h := settings_update_is_partial exampleRow exampleUpdate
  ⟨h.2.1 (some "dark") rfl, h.2.2.1 rfl, h.2.2.2.2.2.1 none rfl, h.2.2.2.2.2.2.2.2.2.2.2.2.2.2.2.2.2.2.2.2.2.2.2.2.2.2.2.2.2.1 (some true) rfl⟩

end MarkUI
